import Mathlib

/-!
Verification of the news CLI (`news_cli.py`): a single-file command-line
utility that queries the NewsAPI `/v2/everything` endpoint and prints the
results.  The Python source is shallowly embedded below: each Python
function becomes a Lean definition of the same name (where Lean allows),
environment-dependent inputs (current UTC time, the local-timezone
formatter, the interactive prompt line) become explicit parameters, and
exceptions become `Except`/`Option` results.
-/

namespace NewsCli

/-! ## Output actions

`main` interacts with the terminal by printing to stdout/stderr and
exiting.  We model the observable behaviour as a list of actions. -/

inductive OutAction where
  | printOut (s : String)
  | printErr (s : String)
  | exit (code : Nat)
  deriving DecidableEq, Repr

/-! ## Data model

`Article` mirrors the provider's article object as the program reads it:
`title`, `description`, `url`, `publishedAt` are each a string or
null/absent.  Python's `dict.get` returns `None` both for an absent key
and a JSON null, and the program only distinguishes values by falsiness,
so `none` models absent-or-null and `some s` a string value. -/

structure Article where
  title : Option String
  description : Option String
  url : Option String
  publishedAt : Option String
  deriving DecidableEq, Repr

/-- The decoded JSON body of a 2xx response, with the fields the program
reads: `status`, `message`, `articles` (each possibly absent/null). -/
structure RespBody where
  status : Option String
  message : Option String
  articles : Option (List Article)
  deriving DecidableEq, Repr

/-- Python `x or default` for an optional string `x`: `None` and `""` are
falsy and yield the default; any other string is returned unchanged. -/
def pyOrStr (v : Option String) (d : String) : String :=
  match v with
  | none => d
  | some s => if s = "" then d else s

/-! ## Query Builder: limit clamp and recency date -/

/-- `limit = max(1, min(args.limit, 5))` from `main` (line 248).
Argparse `type=int` admits any integer, so the argument is `Int`. -/
def clampLimit (n : Int) : Int := max 1 (min n 5)

/-- The UTC calendar date (as a day number, days since the Unix epoch)
of an epoch timestamp in seconds: `datetime.now(timezone.utc).date()`.
Floor division; for a positive divisor `Int.ediv` is floor division. -/
def utcDate (ts : Int) : Int := Int.ediv ts 86400

/-- `from_date = (datetime.now(timezone.utc) - timedelta(days=days)).date().isoformat()`
from `fetch_news` (line 88), as a day number: subtracting `days` whole
days (`days * 86400` seconds) from the current timestamp and truncating
to a calendar date. -/
def from_date (nowTs : Int) (days : Int) : Int :=
  Int.ediv (nowTs - days * 86400) 86400

/-- The query parameters `fetch_news` sends to the provider
(lines 90–97).  `fromDate` is a day number (see `from_date`). -/
structure ReqParams where
  q : String
  language : String
  sortBy : String
  fromDate : Int
  pageSize : Int
  apiKey : String
  deriving DecidableEq, Repr

/-- The `params` dict built in `fetch_news` (lines 90–97). -/
def buildParams (query apiKey : String) (pageSize : Int) (language : String)
    (days : Int) (nowTs : Int) : ReqParams :=
  { q := query
    language := language
    sortBy := "publishedAt"
    fromDate := from_date nowTs days
    pageSize := pageSize
    apiKey := apiKey }

/-! ## Fetcher: body status check -/

/-- Python's `str(...)` of `data.get("status")` inside the f-string on
line 119: a string prints as itself, `None` prints as `"None"`. -/
def statusRepr : Option String → String
  | some s => s
  | none => "None"

/-- The application-level status check of `fetch_news` (lines 117–119):
a decoded 2xx body whose `status` field is not `"ok"` raises
`RuntimeError(f"Ответ со статусом '{data.get('status')}': {msg}")` where
`msg = data.get("message", "Неизвестная ошибка от NewsAPI.")`.
`Except.error` carries the exception's message. -/
def checkStatus (data : RespBody) : Except String RespBody :=
  if data.status = some "ok" then
    Except.ok data
  else
    Except.error ("Ответ со статусом '" ++ statusRepr data.status ++ "': "
      ++ data.message.getD "Неизвестная ошибка от NewsAPI.")

/-! ## Query resolution in `main` (lines 234–245)

`args.query` is `none` when `--q` was not given.  If the CLI value is
falsy (`None` or `""`), the program blocks on `input(...)` and strips the
line; `promptLine = none` models `EOFError` on that read.  A query that
is falsy after this resolution prints guidance and exits 0. -/

inductive QueryResolution where
  | guidanceExit0
  | inputErrorExit1
  | proceed (q : String)
  deriving DecidableEq, Repr

/-- Python falsiness of the optional CLI string. -/
def pyFalsy (v : Option String) : Bool :=
  match v with
  | none => true
  | some s => s = ""

/-- Python `str.strip()`: remove leading and trailing whitespace. -/
def pyStrip (s : String) : String :=
  ⟨((s.data.dropWhile Char.isWhitespace).reverse.dropWhile Char.isWhitespace).reverse⟩

/-- Lines 234–245 of `main`: resolve the query from the CLI argument or
the interactive prompt (whose line is stripped). -/
def resolveQuery (cliQuery : Option String) (promptLine : Option String) :
    QueryResolution :=
  let q1 : Option String :=
    if pyFalsy cliQuery then promptLine.map pyStrip else cliQuery
  match q1 with
  | none => QueryResolution.inputErrorExit1
  | some q => if q = "" then QueryResolution.guidanceExit0 else QueryResolution.proceed q

/-- The terminal actions of the query-resolution step, when it
terminates the process; `none` means the pipeline continues on to the
network request. -/
def queryOutcome : QueryResolution → Option (List OutAction)
  | QueryResolution.guidanceExit0 =>
      some [OutAction.printOut "[Подсказка] Пустой запрос. Примеры: технологии, финансы, климат.",
            OutAction.exit 0]
  | QueryResolution.inputErrorExit1 =>
      some [OutAction.printErr "[Ошибка] Не удалось прочитать ввод.",
            OutAction.exit 1]
  | QueryResolution.proceed _ => none

/-- The request `main` issues for a resolved query (lines 247–261):
`none` when the query step already terminated the process, otherwise the
parameters of the single network call, with the limit clamped and the
remaining arguments passed through unvalidated. -/
def mainRequestParams (qr : QueryResolution) (apiKey language : String)
    (limit days nowTs : Int) : Option ReqParams :=
  match qr with
  | QueryResolution.proceed q =>
      some (buildParams q apiKey (clampLimit limit) language days nowTs)
  | _ => none

/-! ## `human_datetime` (lines 124–143)

The program parses the provider timestamp with
`datetime.fromisoformat(iso_str.replace("Z", "+00:00"))` and formats it
in the local timezone.  `fromisoformat` below models CPython's
(pre-3.11) grammar `YYYY-MM-DD[*HH[:MM[:SS[.fff[fff]]]][±HH:MM]]`:
a malformed string parses to `none` (Python raises `ValueError`).
Local-timezone rendering (`astimezone` + `strftime`) depends on the
machine's timezone database, so it is an explicit parameter `localFmt`
of the presenter. -/

/-- A parsed `datetime` value: calendar fields plus an optional
UTC-offset in minutes (`none` = naive datetime). -/
structure PyDateTime where
  year : Nat
  month : Nat
  day : Nat
  hour : Nat
  minute : Nat
  second : Nat
  microsecond : Nat
  tzOffsetMin : Option Int
  deriving DecidableEq, Repr

/-- Read exactly `n` decimal digits from the front of `cs`. -/
def takeDigits (n : Nat) (cs : List Char) : Option (Nat × List Char) :=
  let pre := cs.take n
  if pre.length = n ∧ pre.all (fun c => c.isDigit) then
    some (pre.foldl (fun a c => a * 10 + (c.toNat - 48)) 0, cs.drop n)
  else none

/-- Consume one expected character. -/
def expectChar (c : Char) (cs : List Char) : Option (List Char) :=
  match cs with
  | d :: rest => if d = c then some rest else none
  | [] => none

def isLeapYear (y : Nat) : Bool := (y % 4 = 0 && y % 100 ≠ 0) || y % 400 = 0

def daysInMonth (y m : Nat) : Nat :=
  if m = 2 then (if isLeapYear y then 29 else 28)
  else if m = 4 ∨ m = 6 ∨ m = 9 ∨ m = 11 then 30
  else 31

/-- A fractional-seconds suffix: absent, or a dot followed by exactly
three or six digits, yielding microseconds. -/
def parseFraction (cs : List Char) : Option (Nat × List Char) :=
  match cs with
  | '.' :: rest =>
      match takeDigits 6 rest with
      | some (f, rest') => some (f, rest')
      | none =>
          match takeDigits 3 rest with
          | some (f, rest') => some (f * 1000, rest')
          | none => none
  | _ => some (0, cs)

/-- An optional `±HH:MM` UTC-offset suffix (in minutes); must consume
the rest of the input. -/
def parseOffset (cs : List Char) : Option (Option Int) :=
  match cs with
  | [] => some none
  | sign :: rest =>
      if sign = '+' ∨ sign = '-' then do
        let (oh, r1) ← takeDigits 2 rest
        let r2 ← expectChar ':' r1
        let (om, r3) ← takeDigits 2 r2
        if oh ≤ 23 ∧ om ≤ 59 ∧ r3 = [] then
          some (some ((if sign = '-' then (-1 : Int) else 1) * (oh * 60 + om)))
        else none
      else none

/-- The `[:MM[:SS[.fff[fff]]]]` tail of the time part: minutes, seconds
and microseconds default to 0 when absent. -/
def parseMinSec (cs : List Char) : Option (Nat × Nat × Nat × List Char) :=
  match cs with
  | ':' :: r => do
      let (mi, r1) ← takeDigits 2 r
      match r1 with
      | ':' :: r2 => do
          let (se, r3) ← takeDigits 2 r2
          let (us, r4) ← parseFraction r3
          pure (mi, se, us, r4)
      | _ => pure (mi, 0, 0, r1)
  | _ => pure (0, 0, 0, cs)

/-- Model of `datetime.fromisoformat`: `none` models a raised
`ValueError` on a malformed string. -/
def fromisoformat (s : String) : Option PyDateTime := do
  let cs := s.data
  let (y, r1) ← takeDigits 4 cs
  let r2 ← expectChar '-' r1
  let (mo, r3) ← takeDigits 2 r2
  let r4 ← expectChar '-' r3
  let (d, r5) ← takeDigits 2 r4
  if 1 ≤ y ∧ y ≤ 9999 ∧ 1 ≤ mo ∧ mo ≤ 12 ∧ 1 ≤ d ∧ d ≤ daysInMonth y mo then
    match r5 with
    | [] => some ⟨y, mo, d, 0, 0, 0, 0, none⟩
    | _sep :: r6 => do
        let (h, r7) ← takeDigits 2 r6
        let (mi, se, us, r8) ← parseMinSec r7
        let off ← parseOffset r8
        if h ≤ 23 ∧ mi ≤ 59 ∧ se ≤ 59 then
          some ⟨y, mo, d, h, mi, se, us, off⟩
        else none
  else none

/-- Replace every occurrence of a character by a replacement string. -/
def replaceChar (target : Char) (repl : List Char) : List Char → List Char
  | [] => []
  | c :: cs =>
      if c = target then repl ++ replaceChar target repl cs
      else c :: replaceChar target repl cs

/-- `iso_str.replace("Z", "+00:00")` (line 138): Python `str.replace`
for the single-character pattern `"Z"`. -/
def replaceZ (s : String) : String :=
  ⟨replaceChar 'Z' ("+00:00".data) s.data⟩

/-- `human_datetime` (lines 124–143): empty input renders as `""`;
otherwise the string (with `"Z"` replaced by `"+00:00"`) is parsed and
handed to the local-timezone formatter `localFmt` (modelling
`astimezone().strftime("%d.%m.%Y %H:%M")`); if parsing fails the
original string is returned unmodified. -/
def human_datetime (localFmt : PyDateTime → String) (iso_str : String) : String :=
  if iso_str = "" then ""
  else
    match fromisoformat (replaceZ iso_str) with
    | some dt => localFmt dt
    | none => iso_str

/-! ## `format_article` (lines 146–167) -/

/-- Split a character list into maximal runs of non-whitespace;
`cur` accumulates the current word reversed. -/
def splitWsAux : List Char → List Char → List (List Char)
  | [], cur => if cur = [] then [] else [cur.reverse]
  | c :: cs, cur =>
      if c.isWhitespace then
        if cur = [] then splitWsAux cs []
        else cur.reverse :: splitWsAux cs []
      else splitWsAux cs (c :: cur)

/-- The words of a string, as `str.split()` with no argument yields
them: maximal runs of non-whitespace (used by `textwrap.fill`, which
first splits the text into chunks and collapses whitespace). -/
def splitWords (s : String) : List String :=
  (splitWsAux s.data []).map (fun l => ⟨l⟩)

/-- Greedy line packing: append each word to the current line while the
line stays within `width`, else start a new line. -/
def packLine (width : Nat) : List String → String → List String
  | [], cur => [cur]
  | w :: ws, cur =>
      if cur.length + 1 + w.length ≤ width then packLine width ws (cur ++ " " ++ w)
      else cur :: packLine width ws w

/-- Model of `textwrap.fill(s, width)` for texts whose words fit the
width (the program wraps titles/descriptions at width 100): whitespace
is collapsed and words are packed greedily into lines joined by
newlines. -/
def textwrap_fill (s : String) (width : Nat) : String :=
  match splitWords s with
  | [] => ""
  | w :: ws => String.intercalate "\n" (packLine width ws w)

/-- `title = article.get("title") or "(без заголовка)"` (line 153). -/
def articleTitle (a : Article) : String := pyOrStr a.title "(без заголовка)"

/-- `desc = article.get("description") or "(без описания)"` (line 154). -/
def articleDescription (a : Article) : String := pyOrStr a.description "(без описания)"

/-- `url = article.get("url") or ""` (line 155). -/
def articleUrl (a : Article) : String := pyOrStr a.url ""

/-- `published_at = human_datetime(article.get("publishedAt") or "")`
(line 156). -/
def articlePublishedAt (localFmt : PyDateTime → String) (a : Article) : String :=
  human_datetime localFmt (pyOrStr a.publishedAt "")

/-- `format_article` (lines 146–167): the multi-line block for one
article. -/
def format_article (localFmt : PyDateTime → String) (article : Article) : String :=
  "— " ++ textwrap_fill (articleTitle article) 100 ++ "\n"
    ++ textwrap_fill (articleDescription article) 100 ++ "\n"
    ++ "Ссылка: " ++ articleUrl article ++ "\n"
    ++ "Опубликовано: " ++ articlePublishedAt localFmt article ++ "\n"

/-! ## Presenter (lines 266–281) -/

/-- `data.get("articles") or []` (line 266): an absent/null article list
becomes the empty list. -/
def articlesOf (data : RespBody) : List Article :=
  (data.articles).getD []

/-- The lines printed by
`for idx, article in enumerate(articles, start=1): print(f"{idx}. {format_article(article)}")`
starting the numbering at `idx` (line 278). -/
def renderFrom (localFmt : PyDateTime → String) (idx : Nat) :
    List Article → List String
  | [] => []
  | a :: rest =>
      (toString idx ++ ". " ++ format_article localFmt a)
        :: renderFrom localFmt (idx + 1) rest

/-- The text-mode output lines, numbered from 1 in response order
(lines 278–279). -/
def renderText (localFmt : PyDateTime → String) (arts : List Article) : List String :=
  renderFrom localFmt 1 arts

/-! ## JSON output: `json.dumps(articles, ensure_ascii=False, indent=2)`
(line 274), modelled over the article schema.  With
`ensure_ascii=False`, Python escapes only `"`, `\` and control
characters; every other character — in particular every non-ASCII
character — is emitted literally. -/

def hexDigit (n : Nat) : Char :=
  if n < 10 then Char.ofNat (48 + n) else Char.ofNat (87 + n)

def hex4 (n : Nat) : String :=
  String.mk [hexDigit (n / 4096 % 16), hexDigit (n / 256 % 16),
             hexDigit (n / 16 % 16), hexDigit (n % 16)]

/-- How `json.dumps` with `ensure_ascii=False` emits one character of a
string value. -/
def escapeJsonChar (c : Char) : String :=
  if c = '"' then "\\\""
  else if c = '\\' then "\\\\"
  else if c = '\n' then "\\n"
  else if c = '\r' then "\\r"
  else if c = '\t' then "\\t"
  else if c = '\x08' then "\\b"
  else if c = '\x0c' then "\\f"
  else if c.toNat < 0x20 then "\\u" ++ hex4 c.toNat
  else String.singleton c

def escapeJsonString (s : String) : String :=
  "\"" ++ String.join (s.data.map escapeJsonChar) ++ "\""

/-- A string-or-null article field as JSON. -/
def jsonStrOrNull : Option String → String
  | none => "null"
  | some s => escapeJsonString s

def dumpField (k : String) (v : Option String) : String :=
  "    " ++ escapeJsonString k ++ ": " ++ jsonStrOrNull v

/-- One article object, `indent=2` style. -/
def dumpArticle (a : Article) : String :=
  "  \x7b\n"
    ++ String.intercalate ",\n"
        [dumpField "title" a.title,
         dumpField "description" a.description,
         dumpField "url" a.url,
         dumpField "publishedAt" a.publishedAt]
    ++ "\n  \x7d"

/-- `json.dumps(articles, ensure_ascii=False, indent=2)`: the raw
article list, serialized field-for-field. -/
def json_dumps (arts : List Article) : String :=
  if arts = [] then "[]"
  else "[\n" ++ String.intercalate ",\n" (arts.map dumpArticle) ++ "\n]"

/-- The presenter step of `main` (lines 266–281): the terminal actions
after a successful fetch, given the article list and the `--json`
flag. -/
def presentStep (localFmt : PyDateTime → String) (articles : List Article)
    (as_json : Bool) : List OutAction :=
  if articles = [] then
    [OutAction.printOut "Ничего не найдено по этой теме в выбранном интервале.",
     OutAction.exit 0]
  else if as_json then
    [OutAction.printOut (json_dumps articles), OutAction.exit 0]
  else
    (renderText localFmt articles).map OutAction.printOut
      ++ [OutAction.printOut "Готово."]

end NewsCli

namespace NewsCli

/-! ## Theorems -/

/-- Subtracting `d` whole days from a timestamp and truncating to a UTC
date is truncating first and then subtracting `d` days. -/
lemma from_date_shift (ts d : Int) : from_date ts d = utcDate ts - d := by
  have h86 : (86400 : Int) ≠ 0 := by decide
  have h := Int.add_mul_ediv_right ts (-d) h86
  simpa [from_date, utcDate, sub_eq_add_neg, neg_mul] using h

/-- C3: for every integer supplied as the `--n` (alias `--limit`) value, the
effective request limit — the `pageSize` sent to the provider — is
clamped into `[1,5]`: inputs below 1 become 1, inputs above 5 become 5,
inputs already in `[1,5]` are unchanged (`0 → 1`, `99 → 5`, `3 → 3`),
and the limit never exceeds 5. -/
theorem limit_clamped (n : Int) (q k l : String) (d ts : Int) :
    1 ≤ clampLimit n ∧ clampLimit n ≤ 5 ∧
    clampLimit n = (if n < 1 then 1 else if n ≤ 5 then n else 5) ∧
    (buildParams q k (clampLimit n) l d ts).pageSize = clampLimit n ∧
    clampLimit 0 = 1 ∧ clampLimit 99 = 5 ∧ clampLimit 3 = 3 := by
  refine ⟨?_, ?_, ?_, rfl, by decide, by decide, by decide⟩ <;>
    · simp only [clampLimit, max_def, min_def]
      split_ifs <;> omega

/-- C4: for every integer `days`, the `from` (minimum-date) parameter of
the request equals the current UTC date minus `days` days: subtracting
`days` whole days from the current UTC time and truncating to a calendar
date yields exactly the date `days` days before the current UTC date. -/
theorem from_date_is_utc_date_minus_days (nowTs days : Int)
    (q k : String) (ps : Int) (l : String) :
    from_date nowTs days = utcDate nowTs - days ∧
    (buildParams q k ps l days nowTs).fromDate = utcDate nowTs - days := by
  exact ⟨from_date_shift nowTs days, from_date_shift nowTs days⟩

/-- C1 counterexample: a whitespace-only query supplied via the `--q`
flag is truthy in Python, so lines 234–245 neither prompt nor trim it:
the pipeline proceeds to the network request instead of printing
guidance and exiting 0, although the query is whitespace-only after
trimming. -/
theorem cli_whitespace_query_issues_request :
    pyStrip " " = "" ∧
    resolveQuery (some " ") none = QueryResolution.proceed " " ∧
    resolveQuery (some " ") none ≠ QueryResolution.guidanceExit0 ∧
    queryOutcome (resolveQuery (some " ") none) = none ∧
    (mainRequestParams (resolveQuery (some " ") none) "key" "ru" 5 7 0).isSome
      = true := by
  refine ⟨by decide, by decide, by decide, by decide, by decide⟩

/-- C1 (amended): only the interactively-entered query is stripped.  For
every prompt line that is whitespace-only after stripping — the prompt
being reached whenever the CLI query is absent or the empty string — no
request is issued: the program prints guidance and exits 0.  (A
whitespace-only non-empty CLI query, by contrast, is used as-is and a
request is issued.) -/
theorem empty_query_guidance_exit0 (cli : Option String) (line : String)
    (k lang : String) (lim d ts : Int)
    (hcli : pyFalsy cli = true) (hline : pyStrip line = "") :
    resolveQuery cli (some line) = QueryResolution.guidanceExit0 ∧
    queryOutcome (resolveQuery cli (some line)) =
      some [OutAction.printOut
              "[Подсказка] Пустой запрос. Примеры: технологии, финансы, климат.",
            OutAction.exit 0] ∧
    mainRequestParams (resolveQuery cli (some line)) k lang lim d ts = none := by
  have h : resolveQuery cli (some line) = QueryResolution.guidanceExit0 := by
    simp [resolveQuery, hcli, hline]
  exact ⟨h, by rw [h]; rfl, by rw [h]; rfl⟩

/-- Witness for the amended C1 at a concrete input: CLI query `""`
falls through to the prompt, the prompt line `"   "` strips to empty,
and the pipeline prints guidance and exits 0 with no request. -/
theorem empty_query_guidance_exit0_witness :
    pyFalsy (some "") = true ∧ pyStrip "   " = "" ∧
    (resolveQuery (some "") (some "   ") = QueryResolution.guidanceExit0 ∧
     queryOutcome (resolveQuery (some "") (some "   ")) =
       some [OutAction.printOut
               "[Подсказка] Пустой запрос. Примеры: технологии, финансы, климат.",
             OutAction.exit 0] ∧
     mainRequestParams (resolveQuery (some "") (some "   ")) "key" "ru" 5 7 0
       = none) :=
  ⟨by decide, by decide,
   empty_query_guidance_exit0 (some "") "   " "key" "ru" 5 7 0
     (by decide) (by decide)⟩

/-- C2 counterexample: for the 2xx body
`{"status":"error","message":"Rate limit exceeded"}` the raised error's
message is `"Ответ со статусом 'error': Rate limit exceeded"` (line
119 prefixes the status), not exactly `"Rate limit exceeded"`. -/
theorem rate_limit_error_message_not_exact :
    checkStatus
        { status := some "error", message := some "Rate limit exceeded",
          articles := some [] }
      = Except.error "Ответ со статусом 'error': Rate limit exceeded" ∧
    "Ответ со статусом 'error': Rate limit exceeded" ≠ "Rate limit exceeded" := by
  refine ⟨rfl, by decide⟩

/-- C2 (amended): for every 2xx body whose `status` field is a string
other than `"ok"` and whose `message` field is present, the pipeline
fails with an error whose message is the body's message prefixed with
the status marker: `"Ответ со статусом '<status>': <message>"`. -/
theorem non_ok_status_error_carries_message (st m : String)
    (arts : Option (List Article)) (h : st ≠ "ok") :
    checkStatus { status := some st, message := some m, articles := arts }
      = Except.error ("Ответ со статусом '" ++ st ++ "': " ++ m) := by
  simp [checkStatus, statusRepr, h]

/-- Witness for the amended C2 at the spec's concrete body: status
`"error"`, message `"Rate limit exceeded"`. -/
theorem non_ok_status_error_carries_message_witness :
    ("error" ≠ "ok") ∧
    checkStatus
        { status := some "error", message := some "Rate limit exceeded",
          articles := some [] }
      = Except.error ("Ответ со статусом '" ++ "error" ++ "': "
          ++ "Rate limit exceeded") :=
  ⟨by decide,
   non_ok_status_error_carries_message "error" "Rate limit exceeded" (some [])
     (by decide)⟩

/-- C5: for every timestamp string whose conversion fails (the parse of
the `Z`-normalized string raises), rendering does not abort: the
presenter returns the original raw string unmodified, for every local
formatter. -/
theorem human_datetime_fallback (localFmt : PyDateTime → String) (s : String)
    (h : fromisoformat (replaceZ s) = none) :
    human_datetime localFmt s = s := by
  by_cases hs : s = ""
  · simp [human_datetime, hs]
  · simp [human_datetime, hs, h]

/-- Witness for C5 at the malformed input `"not-a-date"`. -/
theorem human_datetime_fallback_witness :
    fromisoformat (replaceZ "not-a-date") = none ∧
    human_datetime (fun _ => "") "not-a-date" = "not-a-date" :=
  ⟨by decide, human_datetime_fallback (fun _ => "") "not-a-date" (by decide)⟩

/-- C6: for every successful provider response whose article list is
empty (or absent/null, which line 266 folds into the empty list), the
pipeline prints the "nothing found" notice and exits 0, in either
output mode; the body passes the status check, so this is not an
error. -/
theorem empty_articles_nothing_found_exit0 (localFmt : PyDateTime → String)
    (msg : Option String) (as_json : Bool) :
    presentStep localFmt (articlesOf
        { status := some "ok", message := msg, articles := some [] }) as_json
      = [OutAction.printOut "Ничего не найдено по этой теме в выбранном интервале.",
         OutAction.exit 0] ∧
    presentStep localFmt (articlesOf
        { status := some "ok", message := msg, articles := none }) as_json
      = [OutAction.printOut "Ничего не найдено по этой теме в выбранном интервале.",
         OutAction.exit 0] ∧
    checkStatus { status := some "ok", message := msg, articles := some [] }
      = Except.ok { status := some "ok", message := msg, articles := some [] } := by
  exact ⟨rfl, rfl, rfl⟩

/-- C7: in `--json` mode, for every non-empty article list the raw list
is serialized with `json.dumps(..., ensure_ascii=False, indent=2)` and
printed, then the process exits 0; and the serializer emits every
character that is not `"`, `\`, or a control character — in particular
every non-ASCII character — literally, unescaped. -/
theorem json_mode_dumps_raw_articles (localFmt : PyDateTime → String)
    (arts : List Article) (c : Char) (h : arts ≠ [])
    (h1 : 0x20 ≤ c.toNat) (h2 : c ≠ '"') (h3 : c ≠ '\\') :
    presentStep localFmt arts true
      = [OutAction.printOut (json_dumps arts), OutAction.exit 0] ∧
    escapeJsonChar c = String.singleton c := by
  constructor
  · simp [presentStep, h]
  · have hn : c ≠ '\n' := by rintro rfl; exact absurd h1 (by decide)
    have hr : c ≠ '\r' := by rintro rfl; exact absurd h1 (by decide)
    have ht : c ≠ '\t' := by rintro rfl; exact absurd h1 (by decide)
    have hb : c ≠ '\x08' := by rintro rfl; exact absurd h1 (by decide)
    have hf : c ≠ '\x0c' := by rintro rfl; exact absurd h1 (by decide)
    have hc : ¬ c.toNat < 0x20 := by omega
    simp [escapeJsonChar, h2, h3, hn, hr, ht, hb, hf, hc]

/-- Witness for C7 at a one-article list with non-ASCII text and the
non-ASCII character `'я'`. -/
theorem json_mode_dumps_raw_articles_witness :
    (([⟨some "Привет, мир", none, none, some "2025-08-20T09:15:00Z"⟩] :
        List Article) ≠ []) ∧
    0x20 ≤ ('я').toNat ∧
    (presentStep (fun _ => "")
        [⟨some "Привет, мир", none, none, some "2025-08-20T09:15:00Z"⟩] true
      = [OutAction.printOut (json_dumps
            [⟨some "Привет, мир", none, none, some "2025-08-20T09:15:00Z"⟩]),
         OutAction.exit 0] ∧
     escapeJsonChar 'я' = String.singleton 'я') :=
  ⟨by decide, by decide,
   json_mode_dumps_raw_articles (fun _ => "")
     [⟨some "Привет, мир", none, none, some "2025-08-20T09:15:00Z"⟩] 'я'
     (by decide) (by decide) (by decide) (by decide)⟩

/-- The lines produced by the numbered loop: the `i`-th line is the
`(start + i)`-numbered rendering of the `i`-th article. -/
lemma renderFrom_get? (localFmt : PyDateTime → String) (arts : List Article) :
    ∀ (n i : Nat),
      (renderFrom localFmt n arts).get? i
        = (arts.get? i).map
            (fun a => toString (n + i) ++ ". " ++ format_article localFmt a) := by
  induction arts with
  | nil => intro n i; simp [renderFrom]
  | cons a rest ih =>
      intro n i
      cases i with
      | zero => simp [renderFrom]
      | succ i =>
          simp only [renderFrom, List.get?]
          rw [ih (n + 1) i]
          have : n + 1 + i = n + (i + 1) := by omega
          rw [this]

lemma renderFrom_length (localFmt : PyDateTime → String) (arts : List Article) :
    ∀ n : Nat, (renderFrom localFmt n arts).length = arts.length := by
  induction arts with
  | nil => intro n; simp [renderFrom]
  | cons a rest ih => intro n; simp [renderFrom, ih]

/-- C8: in text mode, articles are numbered consecutively from 1 in
exactly the response order: the rendering has one line per article, and
its `i`-th line is `"<i+1>. "` followed by the formatting of the `i`-th
article of the response — the list is never re-sorted locally. -/
theorem text_mode_numbering (localFmt : PyDateTime → String)
    (arts : List Article) (i : Nat) :
    (renderText localFmt arts).length = arts.length ∧
    (renderText localFmt arts).get? i
      = (arts.get? i).map
          (fun a => toString (i + 1) ++ ". " ++ format_article localFmt a) := by
  constructor
  · exact renderFrom_length localFmt arts 1
  · rw [renderText, renderFrom_get? localFmt arts 1 i]
    have : 1 + i = i + 1 := by omega
    rw [this]

/-- C9: `format_article` is total on articles whose `title`,
`description`, `url` and `publishedAt` are absent or null: it renders
the placeholder `"(без заголовка)"` for the title, `"(без описания)"`
for the description, and the empty string for the URL and the
timestamp. -/
theorem format_article_missing_fields (localFmt : PyDateTime → String)
    (a : Article) (htl : a.title = none) (hds : a.description = none)
    (hur : a.url = none) (hpb : a.publishedAt = none) :
    articleTitle a = "(без заголовка)" ∧
    articleDescription a = "(без описания)" ∧
    articleUrl a = "" ∧
    articlePublishedAt localFmt a = "" ∧
    format_article localFmt a
      = "— (без заголовка)\n(без описания)\nСсылка: \nОпубликовано: \n" := by
  refine ⟨?_, ?_, ?_, ?_, ?_⟩
  · simp [articleTitle, pyOrStr, htl]
  · simp [articleDescription, pyOrStr, hds]
  · simp [articleUrl, pyOrStr, hur]
  · simp [articlePublishedAt, pyOrStr, hpb, human_datetime]
  · simp only [format_article, articleTitle, articleDescription, articleUrl,
      articlePublishedAt, pyOrStr, htl, hds, hur, hpb]
    rfl

/-- Witness for C9 at the article with all four fields absent. -/
theorem format_article_missing_fields_witness :
    Article.title ⟨none, none, none, none⟩ = none ∧
    (articleTitle ⟨none, none, none, none⟩ = "(без заголовка)" ∧
     articleDescription ⟨none, none, none, none⟩ = "(без описания)" ∧
     articleUrl ⟨none, none, none, none⟩ = "" ∧
     articlePublishedAt (fun _ => "") ⟨none, none, none, none⟩ = "" ∧
     format_article (fun _ => "") ⟨none, none, none, none⟩
       = "— (без заголовка)\n(без описания)\nСсылка: \nОпубликовано: \n") :=
  ⟨rfl,
   format_article_missing_fields (fun _ => "") ⟨none, none, none, none⟩
     rfl rfl rfl rfl⟩

/-- C10: the `--days` value is never validated to be non-negative: for
every integer `days`, in particular every negative one, the request is
still issued (the parameters are built), the minimum-date floor is the
current UTC date minus `days` — which for negative `days` is a date
strictly in the future. -/
theorem negative_days_future_from_date (q k lang : String)
    (lim days ts : Int) (h : days < 0) :
    mainRequestParams (QueryResolution.proceed q) k lang lim days ts
      = some (buildParams q k (clampLimit lim) lang days ts) ∧
    (buildParams q k (clampLimit lim) lang days ts).fromDate
      = utcDate ts - days ∧
    utcDate ts < (buildParams q k (clampLimit lim) lang days ts).fromDate := by
  refine ⟨rfl, from_date_shift ts days, ?_⟩
  have hf : (buildParams q k (clampLimit lim) lang days ts).fromDate
      = utcDate ts - days := from_date_shift ts days
  omega

/-- Witness for C10 at `--days -3`. -/
theorem negative_days_future_from_date_witness :
    ((-3 : Int) < 0) ∧
    (mainRequestParams (QueryResolution.proceed "спорт") "key" "ru" 5 (-3) 0
       = some (buildParams "спорт" "key" (clampLimit 5) "ru" (-3) 0) ∧
     (buildParams "спорт" "key" (clampLimit 5) "ru" (-3) 0).fromDate
       = utcDate 0 - (-3) ∧
     utcDate 0 < (buildParams "спорт" "key" (clampLimit 5) "ru" (-3) 0).fromDate) :=
  ⟨by decide,
   negative_days_future_from_date "спорт" "key" "ru" 5 (-3) 0 (by decide)⟩

end NewsCli
